import Mathlib

/-!
Shallow embedding of `controllers/common/cache.go` (the CSCache composition
layer: key scheme, watch-backed store get/list/index, store registry
construction, and the wait-for-sync loop), together with theorems settling
the frozen claims about it.

Conventions of the embedding:
* Go strings are Lean `String`s; Go maps keyed by GVK become functions
  `GVK → Option _` updated point-wise (last write wins, as for a Go map).
* `schema.GroupVersionKind` is the structure `GVK`.
* Objects are the structure `Obj`: the fields the cache layer actually
  touches (namespace, name, labels, the object-kind stamp set by
  `SetGroupVersionKind`) plus `goType`, the name of the object's dynamic Go
  type as seen by `reflect` / scheme resolution.
* Fallible Go functions return `Except GoError _`; `apierrors.IsNotFound`
  is the test for the `GoError.notFound` constructor.
* The remote REST client of `getFromClient` and the fallback cache are
  external collaborators and enter as function parameters; the request the
  code builds (resource plural, namespace, name) is reified as `RemoteReq`
  so that theorems can speak about it.
-/

/-- `schema.GroupVersionKind`. -/
structure GVK where
  group : String
  version : String
  kind : String
deriving DecidableEq, Repr

/-- Errors returned by the cache layer, one constructor per distinct error
shape in the source (`apierrors.NewNotFound`, the reflect type-mismatch
`fmt.Errorf`, the unsupported-field-selector `fmt.Errorf`, a missing index
from `ByIndex`, a scheme-resolution failure, and any other remote error). -/
inductive GoError where
  | notFound (group : String) (resource : String) (key : String)
  | typeMismatch (had : String) (asked : String)
  | unsupportedSelector
  | indexMissing (name : String)
  | noKindMatch (goType : String)
  | other (msg : String)
deriving DecidableEq, Repr

/-- `apierrors.IsNotFound`. -/
def GoError.isNotFound : GoError → Bool
  | .notFound _ _ _ => true
  | _ => false

/-- The slice of a Kubernetes object that this cache layer reads or writes:
metadata namespace/name/labels, the object-kind stamp, and the dynamic Go
type name (`reflect.TypeOf`). -/
structure Obj where
  goType : String
  ns : String
  name : String
  labels : List (String × String)
  gvk : GVK
deriving DecidableEq, Repr

/-- `client.ObjectKey` (`types.NamespacedName`). -/
structure ObjKey where
  ns : String
  name : String
deriving DecidableEq, Repr

/-- `kindToResource` from the source: a two-entry Go map lookup whose zero
value is the empty string for every other kind. -/
def kindToResource (kind : String) : String :=
  if kind == "MutatingWebhookConfiguration" then "mutatingwebhookconfigurations"
  else if kind == "ValidatingWebhookConfiguration" then "validatingwebhookconfigurations"
  else ""

/-- `listToGVK` from the source: keeps group and version and drops the last
TWO characters of the kind (`list.Kind[:len(list.Kind)-2]`). -/
def listToGVK (list : GVK) : GVK :=
  { group := list.group, version := list.version
    kind := list.kind.take (list.kind.length - 2) }

/-- `FieldIndexName` from the source. -/
def FieldIndexName (field : String) : String := "field:" ++ field

/-- The `allNamespacesNamespace` constant from the source. -/
def allNamespacesNamespace : String := "__all_namespaces"

/-- `KeyToNamespacedKey` from the source. -/
def KeyToNamespacedKey (ns : String) (baseKey : String) : String :=
  if ns != "" then ns ++ "/" ++ baseKey
  else allNamespacesNamespace ++ "/" ++ baseKey

/-- `selection.Operator` (the operators of `fields`/`selection`). -/
inductive SelOp where
  | equals
  | doubleEquals
  | notEquals
  | inSet
  | notInSet
  | greaterThan
  | lessThan
deriving DecidableEq, Repr

/-- One requirement of a `fields.Selector`, as returned by
`Selector.Requirements()`. -/
structure FieldReq where
  operator : SelOp
  field : String
  value : String
deriving DecidableEq, Repr

/-- `requiresExactMatch` from the source: the selector must consist of
exactly one requirement whose operator is `=` or `==`. -/
def requiresExactMatch (reqs : List FieldReq) : String × String × Bool :=
  match reqs with
  | [req] =>
    if req.operator == SelOp.equals || req.operator == SelOp.doubleEquals then
      (req.field, req.value, true)
    else ("", "", false)
  | _ => ("", "", false)

/-- The index function built by `indexByField` around a caller-supplied
extractor: for a namespaced object every extracted value yields the
namespace-qualified key followed (in the doubled upper half of the slice)
by the all-namespaces key; for a cluster-scoped object the slice is reused
in place and each value yields only the all-namespaces form
(`KeyToNamespacedKey "" v`). -/
def wrappedIndexFunc (extractor : Obj → List String) (o : Obj) : List String :=
  let ns := o.ns
  let rawVals := extractor o
  if ns == "" then
    rawVals.map (fun v => KeyToNamespacedKey ns v)
  else
    rawVals.map (fun v => KeyToNamespacedKey ns v)
      ++ rawVals.map (fun v => KeyToNamespacedKey "" v)

/-- An index function registered with a `SharedIndexInformer`: either the
built-in `MetaNamespaceIndexFunc` or a wrapped caller extractor added by
`indexByField`. -/
inductive IndexFn where
  | namespaceIdx : IndexFn
  | custom (f : Obj → List String) : IndexFn

/-- Evaluate an index function on an object. `MetaNamespaceIndexFunc`
returns the one-element slice holding the object's namespace. -/
def applyIndexFn : IndexFn → Obj → List String
  | .namespaceIdx, o => [o.ns]
  | .custom f, o => f o

/-- `toolscache.NamespaceIndex`. -/
def NamespaceIndex : String := "namespace"

/-- A `SharedIndexInformer` as this layer sees it: an identity (which
construction created it, standing in for Go pointer identity), the resource
plural its lister-watcher was built with, the GVK it serves, its snapshot
store, its registered indexers and its `HasSynced` flag. -/
structure Informer where
  id : Nat
  resource : String
  gvk : GVK
  objs : List Obj
  indexers : List (String × IndexFn)
  synced : Bool

/-- `MetaNamespaceKeyFunc`: the store key of an object, `name` for
cluster-scoped and `ns/name` otherwise. -/
def metaKey (o : Obj) : String :=
  if o.ns == "" then o.name else o.ns ++ "/" ++ o.name

/-- `informer.GetStore().GetByKey`. -/
def storeGetByKey (inf : Informer) (k : String) : Option Obj :=
  inf.objs.find? (fun o => metaKey o == k)

/-- `informer.GetIndexer().ByIndex`: errors if no index of that name is
registered, otherwise returns the stored objects whose index values for
that index contain the key (the view the thread-safe store maintains
incrementally). -/
def byIndex (inf : Informer) (indexName : String) (key : String) :
    Except GoError (List Obj) :=
  match inf.indexers.lookup indexName with
  | none => .error (.indexMissing indexName)
  | some fn => .ok (inf.objs.filter (fun o => (applyIndexFn fn o).contains key))

/-- `reflect.Type.AssignableTo` restricted to the types of this model:
identical type names are mutually assignable (Go guarantees a type is
always assignable to itself). -/
def assignableTo (x : String) (t : String) : Bool := x == t

/-- The key string computed at the top of `getFromStore`: `name` for a
cluster-scoped key, `ns/name` otherwise. -/
def getKeyString (key : ObjKey) : String :=
  if key.ns == "" then key.name else key.ns ++ "/" ++ key.name

/-- `getFromStore` from the source: look the key up in the informer's
store; absent keys yield `apierrors.NewNotFound` (whose key text is
`ObjectKey.String()`, namespace slash name); on a hit the item is
deep-copied, guarded by the reflect type check — which compares the
caller object's type to itself — copied into the caller's object and
stamped with the GVK.  (The store-error and not-an-Object branches of the
source cannot fire in this model: the store never errors and holds only
`Obj`s.) -/
def getFromStore (inf : Informer) (key : ObjKey) (obj : Obj) (gvk : GVK) :
    Except GoError Obj :=
  let keyString := getKeyString key
  match storeGetByKey inf keyString with
  | none => .error (.notFound gvk.group gvk.kind (key.ns ++ "/" ++ key.name))
  | some item =>
    if !(assignableTo obj.goType obj.goType) then
      .error (.typeMismatch item.goType obj.goType)
    else
      .ok { item with gvk := gvk, goType := obj.goType }

/-- The GET request `getFromClient` issues: resource plural from
`kindToResource(gvk.Kind)`, namespace only if scoped, and the name. -/
structure RemoteReq where
  gvk : GVK
  resource : String
  ns : String
  name : String
deriving DecidableEq, Repr

/-- The request built inside `getFromClient`. -/
def mkGetRequest (gvk : GVK) (key : ObjKey) : RemoteReq :=
  { gvk := gvk, resource := kindToResource gvk.kind, ns := key.ns, name := key.name }

/-- `getFromClient` from the source, with the REST round-trip abstracted as
the function `remote`: a not-found error is returned verbatim
(`IsNotFound` branch) and so is any other error (the `err != nil` branch);
a success passes the self-comparing reflect guard, is copied into the
caller's object and stamped with the GVK. -/
def getFromClient (remote : RemoteReq → Except GoError Obj) (key : ObjKey)
    (obj : Obj) (gvk : GVK) : Except GoError Obj :=
  match remote (mkGetRequest gvk key) with
  | .error e => .error e
  | .ok result =>
    if !(assignableTo obj.goType obj.goType) then
      .error (.typeMismatch result.goType obj.goType)
    else
      .ok { result with gvk := gvk, goType := obj.goType }

/-- The state a `CSCache` value carries: the informer map (the Store
Registry, holding each store's snapshot table and indices) and the scheme,
modelled as an association from Go type names to GVKs
(`apiutil.GVKForObject`). -/
structure CSCacheState where
  informerMap : GVK → Option Informer
  scheme : List (String × GVK)

/-- `apiutil.GVKForObject`. -/
def gvkForObject (scheme : List (String × GVK)) (obj : Obj) : Except GoError GVK :=
  match scheme.lookup obj.goType with
  | some gvk => .ok gvk
  | none => .error (.noKindMatch obj.goType)

/-- `CSCache.Get` from the source, state-passing: resolve the GVK; if a
dedicated informer exists, try `getFromStore` and on ANY store error fall
through to `getFromClient`; otherwise delegate to the fallback cache.  The
second component is the cache state after the call (the source contains no
write to any store on this path, so every return site pairs the result
with the entry state). -/
def cacheGet (c : CSCacheState) (remote : RemoteReq → Except GoError Obj)
    (fallbackGet : ObjKey → Obj → Except GoError Obj)
    (key : ObjKey) (obj : Obj) : Except GoError Obj × CSCacheState :=
  match gvkForObject c.scheme obj with
  | .error e => (.error e, c)
  | .ok gvk =>
    match c.informerMap gvk with
    | some informer =>
      match getFromStore informer key obj gvk with
      | .ok populated => (.ok populated, c)
      | .error _ =>
        match getFromClient remote key obj gvk with
        | .error e => (.error e, c)
        | .ok populated => (.ok populated, c)
    | none => (fallbackGet key obj, c)

/-- `client.ListOptions` as used by `CSCache.List`: a label selector (an
opaque `Matches` predicate over the label set), a field selector (its
requirement list) and the namespace restriction (empty string when
absent). -/
structure ListOptions where
  labelSelector : Option (List (String × String) → Bool)
  fieldSelector : Option (List FieldReq)
  ns : String

/-- The `labelSel != nil → labelSel.Matches(lbls)` check of the list loop. -/
def matchesLabels (sel : Option (List (String × String) → Bool)) (o : Obj) : Bool :=
  match sel with
  | none => true
  | some s => s o.labels

/-- The caller's list object together with the returned error: `List`
mutates the list object only through the final `apimeta.SetList`, so an
error return leaves the caller's list as it was. -/
structure ListResult where
  listObj : List Obj
  err : Option GoError
deriving DecidableEq, Repr

/-- The tail of `CSCache.List` after candidate selection: an error from
selection is returned with the caller's list untouched; otherwise the loop
drops candidates whose namespace differs from a requested namespace (the
two `continue`s), drops candidates the label selector rejects, deep-copies
each survivor, stamps it with `listToGVK(gvk)` and `SetList`s the result
into the caller's list object. -/
def listFinish (gvk : GVK) (listOpts : ListOptions) (listIn : List Obj) :
    Except GoError (List Obj) → ListResult
  | .error e => { listObj := listIn, err := some e }
  | .ok objList =>
    let runtimeObjList :=
      (objList.filter (fun item =>
        !(listOpts.ns != "" && listOpts.ns != item.ns)
          && matchesLabels listOpts.labelSelector item)).map
        (fun item => { item with gvk := listToGVK gvk })
    { listObj := runtimeObjList, err := none }

/-- The watch-backed branch of `CSCache.List` from the source: candidate
selection (field index with a namespaced key, else namespace index, else
the whole store) followed by `listFinish`. -/
def cacheList (inf : Informer) (gvk : GVK) (listOpts : ListOptions)
    (listIn : List Obj) : ListResult :=
  let objListE : Except GoError (List Obj) :=
    match listOpts.fieldSelector with
    | some reqs =>
      let fvr := requiresExactMatch reqs
      if !fvr.2.2 then .error .unsupportedSelector
      else byIndex inf (FieldIndexName fvr.1) (KeyToNamespacedKey listOpts.ns fvr.2.1)
    | none =>
      if listOpts.ns != "" then byIndex inf NamespaceIndex listOpts.ns
      else .ok inf.objs
  listFinish gvk listOpts listIn objListE

/-- `indexByField` from the source: registers the wrapped index function
under the field index name (`AddIndexers`; its failure modes live in the
informer machinery and are not modelled). -/
def indexByField (inf : Informer) (field : String) (extractor : Obj → List String) :
    Informer :=
  { inf with indexers := inf.indexers ++ [(FieldIndexName field, .custom (wrappedIndexFunc extractor))] }

/-- The list identifier derived in `buildInformerMap`:
`schema.GroupVersionKind{Group, Version, Kind + "List"}`. -/
def listGVKOf (gvk : GVK) : GVK :=
  { gvk with kind := gvk.kind ++ "List" }

/-- Point-wise insertion into the informer map (Go map assignment: last
write wins). -/
def mapInsert (m : GVK → Option Informer) (k : GVK) (v : Informer) :
    GVK → Option Informer :=
  fun g => if g = k then some v else m g

/-- The informer `buildInformerMap` creates for one GVK: a fresh
`SharedIndexInformer` (identified by its construction index) whose
lister-watcher uses the plural `kindToResource(gvk.Kind)`, with the
namespace index pre-registered, an empty store and not yet synced. -/
def newInformerFor (id : Nat) (gvk : GVK) : Informer :=
  { id := id, resource := kindToResource gvk.kind, gvk := gvk, objs := []
    indexers := [(NamespaceIndex, IndexFn.namespaceIdx)], synced := false }

/-- The loop of `buildInformerMap`: for each GVK build the narrow client
(`getClientForGVK`, may fail) and the typed object
(`opts.Scheme.New` / `FromUnstructured`, may fail) — either failure aborts
the whole construction with no map — then store a fresh informer under
both the GVK and its derived list GVK.  `clientOK`/`schemeOK` abstract the
two failure points; `nextId` numbers the informers in creation order. -/
def buildInformerMapAux (clientOK : GVK → Bool) (schemeOK : GVK → Bool) :
    List GVK → (GVK → Option Informer) → Nat → Option (GVK → Option Informer)
  | [], acc, _ => some acc
  | gvk :: rest, acc, nextId =>
    if clientOK gvk then
      if schemeOK gvk then
        let informer := newInformerFor nextId gvk
        buildInformerMapAux clientOK schemeOK rest
          (mapInsert (mapInsert acc gvk informer) (listGVKOf gvk) informer)
          (nextId + 1)
      else none
    else none

/-- `buildInformerMap` from the source: run the loop on an initially empty
map. -/
def buildInformerMap (clientOK : GVK → Bool) (schemeOK : GVK → Bool)
    (clusterGVKList : List GVK) : Option (GVK → Option Informer) :=
  buildInformerMapAux clientOK schemeOK clusterGVKList (fun _ => none) 0

/-- The polling loop of `WaitForCacheSync`.  `ctxDone i` tells whether the
context's done channel is closed when the `select` of iteration `i` runs:
if it is, that case is the ready one and the loop exits; otherwise the
one-second tick fires and the loop recomputes `waiting` — `false` for an
empty informer map, else the OR over the informers of `!HasSynced()`
(`syncStates i` lists the `HasSynced` values read at iteration `i`).
Returns `true` when the loop exited within `fuel` iterations, `false` when
the fuel ran out with the loop still waiting. -/
def wfcsLoop (ctxDone : Nat → Bool) (syncStates : Nat → List Bool) :
    Nat → Nat → Bool
  | _, 0 => false
  | i, fuel + 1 =>
    if ctxDone i then true
    else
      let synced := syncStates i
      let waiting := if synced.isEmpty then false else synced.any (fun s => !s)
      if waiting then wfcsLoop ctxDone syncStates (i + 1) fuel else true

/-- `WaitForCacheSync` from the source: run the polling loop, then return
whatever `c.fallback.WaitForCacheSync(ctx)` returns (`fallbackResult`, the
fallback cache being an external black box).  `none` means the loop was
still running after `fuel` iterations. -/
def waitForCacheSync (ctxDone : Nat → Bool) (syncStates : Nat → List Bool)
    (fallbackResult : Bool) (fuel : Nat) : Option Bool :=
  if wfcsLoop ctxDone syncStates 0 fuel then some fallbackResult else none

/-! ## Concrete fixtures used by evaluation theorems and witnesses -/

/-- A ConfigMap object living in namespace `ops`. -/
def cmObj : Obj :=
  { goType := "ConfigMap", ns := "ops", name := "cm1", labels := []
    gvk := ⟨"", "v1", "ConfigMap"⟩ }

/-- A store holding just `cmObj`, with the built-in namespace index. -/
def cmInformer : Informer :=
  { id := 0, resource := "", gvk := ⟨"", "v1", "ConfigMap"⟩, objs := [cmObj]
    indexers := [(NamespaceIndex, IndexFn.namespaceIdx)], synced := true }

/-- List options with no selectors and no namespace restriction. -/
def optsAll : ListOptions :=
  { labelSelector := none, fieldSelector := none, ns := "" }

/-- A single-equality field-selector requirement on `color`. -/
def colorReq : FieldReq := ⟨SelOp.equals, "color", "red"⟩

/-- Options carrying that requirement plus a namespace restriction. -/
def colorOpts : ListOptions :=
  { labelSelector := none, fieldSelector := some [colorReq], ns := "ops" }

/-- The ConfigMap GVK. -/
def cmGVK : GVK := ⟨"", "v1", "ConfigMap"⟩

/-- The registry `buildInformerMap` produces for the one-element input
`[cmGVK]`. -/
def cmRegistry : GVK → Option Informer :=
  mapInsert (mapInsert (fun _ => none) cmGVK (newInformerFor 0 cmGVK))
    (listGVKOf cmGVK) (newInformerFor 0 cmGVK)

/-- A GVK whose kind is `Pod`. -/
def podGVK : GVK := ⟨"g", "v", "Pod"⟩

/-- A GVK whose kind is `PodList` — the list identifier of `podGVK`,
itself used as a registry construction input. -/
def podListGVK : GVK := ⟨"g", "v", "PodList"⟩

/-- The informer id the (optional) registry holds under a GVK — Go pointer
identity of the store, by construction index. -/
def mapIdAt (r : Option (GVK → Option Informer)) (g : GVK) : Option Nat :=
  match r with
  | none => none
  | some m => (m g).map (fun inf => inf.id)

/-! ## Claims -/

/-- A dedicated store for ConfigMaps whose snapshot table is empty. -/
def emptyCmInformer : Informer :=
  { id := 0, resource := "", gvk := ⟨"", "v1", "ConfigMap"⟩, objs := []
    indexers := [(NamespaceIndex, IndexFn.namespaceIdx)], synced := false }

/-- A cache state whose registry serves ConfigMaps from `emptyCmInformer`
and whose scheme resolves the `ConfigMap` Go type. -/
def cmCacheState : CSCacheState :=
  { informerMap := fun g => if g = ⟨"", "v1", "ConfigMap"⟩ then some emptyCmInformer else none
    scheme := [("ConfigMap", ⟨"", "v1", "ConfigMap"⟩)] }

/-- A fallback-cache get used by witnesses (never reached on the
dedicated-store path). -/
def fallbackGetFix : ObjKey → Obj → Except GoError Obj :=
  fun _ o => .ok o

/-- A field selector with two requirements (both equalities, but two of
them), used to witness C3. -/
def twoReqOpts : ListOptions :=
  { labelSelector := none
    fieldSelector := some [⟨SelOp.equals, "a", "1"⟩, ⟨SelOp.equals, "b", "2"⟩]
    ns := "" }

/-- C1 — code bug.  The claim says `listToGVK` removes the `"List"` suffix
from a registered list identifier, so objects returned by `List` are
stamped with the singular kind.  The source slices off only the last TWO
characters: for the list identifier `ConfigMapList` the stamp is
`ConfigMapLi`, not `ConfigMap`, and a `List` call against a store holding
one ConfigMap returns it stamped with kind `ConfigMapLi`. -/
theorem c1_listToGVK_strips_two_not_List :
    listToGVK ⟨"", "v1", "ConfigMapList"⟩ = ⟨"", "v1", "ConfigMapLi"⟩
    ∧ listToGVK ⟨"", "v1", "ConfigMapList"⟩ ≠ ⟨"", "v1", "ConfigMap"⟩
    ∧ cacheList cmInformer ⟨"", "v1", "ConfigMapList"⟩ optsAll []
        = { listObj := [{ cmObj with gvk := ⟨"", "v1", "ConfigMapLi"⟩ }], err := none } := by
  refine ⟨by decide, by decide, ?_⟩
  decide

/-- C10 — for every kind other than the two webhook-configuration kinds,
`kindToResource` returns the empty string, so the informer built at
registry construction passes an empty resource plural to its
lister-watcher and the refill GET built on a cache miss carries an empty
resource name. -/
theorem c10_kindToResource_empty_for_other_kinds (gvk : GVK) (key : ObjKey) (id : Nat)
    (h1 : gvk.kind ≠ "MutatingWebhookConfiguration")
    (h2 : gvk.kind ≠ "ValidatingWebhookConfiguration") :
    kindToResource gvk.kind = ""
    ∧ (newInformerFor id gvk).resource = ""
    ∧ (mkGetRequest gvk key).resource = "" := by
  have h : kindToResource gvk.kind = "" := by
    simp [kindToResource, h1, h2]
  exact ⟨h, h, h⟩

/-- Witness for C10 at the concrete kind `ConfigMap`. -/
theorem c10_witness :
    ((⟨"", "v1", "ConfigMap"⟩ : GVK).kind ≠ "MutatingWebhookConfiguration")
    ∧ ((⟨"", "v1", "ConfigMap"⟩ : GVK).kind ≠ "ValidatingWebhookConfiguration")
    ∧ (kindToResource (⟨"", "v1", "ConfigMap"⟩ : GVK).kind = ""
        ∧ (newInformerFor 0 ⟨"", "v1", "ConfigMap"⟩).resource = ""
        ∧ (mkGetRequest ⟨"", "v1", "ConfigMap"⟩ ⟨"ops", "cm1"⟩).resource = "") :=
  ⟨by decide, by decide,
    c10_kindToResource_empty_for_other_kinds ⟨"", "v1", "ConfigMap"⟩ ⟨"ops", "cm1"⟩ 0
      (by decide) (by decide)⟩

/-- C9 — the type-compatibility guard of both copy paths compares the
caller object's type to itself, so it always passes: `getFromStore` can
never return the type-mismatch error, and on a store hit or a successful
remote fetch the copy proceeds even when the item's dynamic type differs
from the caller's. -/
theorem c9_type_guard_vacuous (obj : Obj) (inf : Informer) (key : ObjKey) (gvk : GVK)
    (remote : RemoteReq → Except GoError Obj) :
    assignableTo obj.goType obj.goType = true
    ∧ (∀ had asked, getFromStore inf key obj gvk ≠ .error (.typeMismatch had asked))
    ∧ (∀ item, storeGetByKey inf (getKeyString key) = some item →
        getFromStore inf key obj gvk = .ok { item with gvk := gvk, goType := obj.goType })
    ∧ (∀ result, remote (mkGetRequest gvk key) = .ok result →
        getFromClient remote key obj gvk = .ok { result with gvk := gvk, goType := obj.goType }) := by
  have hself : assignableTo obj.goType obj.goType = true := by
    simp [assignableTo]
  refine ⟨hself, ?_, ?_, ?_⟩
  · intro had asked
    simp only [getFromStore]
    cases h : storeGetByKey inf (getKeyString key) with
    | none => simp
    | some item => simp [hself]
  · intro item h
    simp only [getFromStore]
    rw [h]
    simp [hself]
  · intro result h
    simp only [getFromClient]
    rw [h]
    simp [hself]

/-- Witness for C9: a store hit whose cached item has dynamic type
`Secret` while the caller asked with a `ConfigMap`-typed object — the copy
still succeeds. -/
theorem c9_witness :
    storeGetByKey
        { id := 1, resource := "", gvk := ⟨"", "v1", "Secret"⟩
          objs := [{ goType := "Secret", ns := "ops", name := "cm1", labels := []
                     gvk := ⟨"", "v1", "Secret"⟩ }]
          indexers := [], synced := true }
        (getKeyString ⟨"ops", "cm1"⟩)
      = some { goType := "Secret", ns := "ops", name := "cm1", labels := []
               gvk := ⟨"", "v1", "Secret"⟩ }
    ∧ getFromStore
        { id := 1, resource := "", gvk := ⟨"", "v1", "Secret"⟩
          objs := [{ goType := "Secret", ns := "ops", name := "cm1", labels := []
                     gvk := ⟨"", "v1", "Secret"⟩ }]
          indexers := [], synced := true }
        ⟨"ops", "cm1"⟩ cmObj ⟨"", "v1", "ConfigMap"⟩
      = .ok { goType := "ConfigMap", ns := "ops", name := "cm1", labels := []
              gvk := ⟨"", "v1", "ConfigMap"⟩ } :=
  ⟨by decide,
    (c9_type_guard_vacuous cmObj
        { id := 1, resource := "", gvk := ⟨"", "v1", "Secret"⟩
          objs := [{ goType := "Secret", ns := "ops", name := "cm1", labels := []
                     gvk := ⟨"", "v1", "Secret"⟩ }]
          indexers := [], synced := true }
        ⟨"ops", "cm1"⟩ ⟨"", "v1", "ConfigMap"⟩ (fun _ => .error .unsupportedSelector)).2.2.1
      { goType := "Secret", ns := "ops", name := "cm1", labels := []
        gvk := ⟨"", "v1", "Secret"⟩ }
      (by decide)⟩

/-- C3 — a `List` call against a watch-backed store whose field selector
is not one single equality requirement fails with the
unsupported-selector error, and the caller's list object is exactly what
it was before the call. -/
theorem c3_unsupported_selector_no_partial_results (inf : Informer) (gvk : GVK)
    (opts : ListOptions) (listIn : List Obj) (reqs : List FieldReq)
    (hfs : opts.fieldSelector = some reqs)
    (hbad : ∀ r, reqs = [r] → r.operator ≠ SelOp.equals ∧ r.operator ≠ SelOp.doubleEquals) :
    cacheList inf gvk opts listIn = { listObj := listIn, err := some .unsupportedSelector } := by
  have hreq : (requiresExactMatch reqs).2.2 = false := by
    match reqs with
    | [] => rfl
    | [r] =>
      obtain ⟨h1, h2⟩ := hbad r rfl
      simp [requiresExactMatch, h1, h2]
    | r1 :: r2 :: rest => rfl
  simp [cacheList, hfs, hreq, listFinish]

/-- Witness for C3: a two-requirement selector fails and leaves the
caller's (non-empty) list object untouched. -/
theorem c3_witness :
    twoReqOpts.fieldSelector = some [⟨SelOp.equals, "a", "1"⟩, ⟨SelOp.equals, "b", "2"⟩]
    ∧ cacheList cmInformer ⟨"", "v1", "ConfigMapList"⟩ twoReqOpts [cmObj]
        = { listObj := [cmObj], err := some .unsupportedSelector } :=
  ⟨rfl,
    c3_unsupported_selector_no_partial_results cmInformer ⟨"", "v1", "ConfigMapList"⟩
      twoReqOpts [cmObj] [⟨SelOp.equals, "a", "1"⟩, ⟨SelOp.equals, "b", "2"⟩] rfl
      (by intro r h; simp at h)⟩

/-- C2 — counterexample.  The claim says that once the cancellation signal
has fired, `WaitForCacheSync` returns `false` regardless of the sync state
of the dedicated stores or the fallback cache.  The source only exits its
own polling loop on cancellation and then returns whatever the fallback
cache's `WaitForCacheSync` returns: with the context already done, one
unsynced dedicated store, and a fallback reporting synced, the call
returns `true`. -/
theorem c2_counterexample :
    waitForCacheSync (fun _ => true) (fun _ => [false]) true 1 = some true
    ∧ waitForCacheSync (fun _ => true) (fun _ => [false]) true 1 ≠ some false := by
  constructor <;> decide

/-- C2 — amended.  If the cancellation signal has fired when the loop first
polls, the dedicated-store wait loop exits immediately (any fuel suffices,
regardless of the stores' sync state) and `WaitForCacheSync` returns
exactly the fallback cache's `WaitForCacheSync` result. -/
theorem c2_cancelled_returns_fallback_result (ctxDone : Nat → Bool)
    (syncStates : Nat → List Bool) (fallbackResult : Bool) (fuel : Nat)
    (hdone : ctxDone 0 = true) (hfuel : 1 ≤ fuel) :
    waitForCacheSync ctxDone syncStates fallbackResult fuel = some fallbackResult := by
  obtain ⟨f, rfl⟩ : ∃ f, fuel = f + 1 := ⟨fuel - 1, by omega⟩
  simp [waitForCacheSync, wfcsLoop, hdone]

/-- Witness for C2's amended theorem: cancelled context, one unsynced
store, fallback reporting not-synced — the result is the fallback's
`false`. -/
theorem c2_witness :
    (fun (_ : Nat) => true) 0 = true
    ∧ 1 ≤ 1
    ∧ waitForCacheSync (fun _ => true) (fun _ => [false, true]) false 1 = some false :=
  ⟨rfl, by decide,
    c2_cancelled_returns_fallback_result (fun _ => true) (fun _ => [false, true]) false 1
      rfl (by decide)⟩

/-- C5 — the wrapped index function yields, for a namespaced object, the
namespace-qualified key `ns/value` and the namespace-agnostic key
`__all_namespaces/value` for every extracted value (twice as many keys as
values), and for a cluster-scoped object exactly the namespace-agnostic
form, one key per value. -/
theorem c5_wrapped_index_keys (extractor : Obj → List String) (o : Obj) :
    (o.ns ≠ "" → wrappedIndexFunc extractor o =
        (extractor o).map (fun v => o.ns ++ "/" ++ v)
          ++ (extractor o).map (fun v => allNamespacesNamespace ++ "/" ++ v))
    ∧ (o.ns = "" → wrappedIndexFunc extractor o =
        (extractor o).map (fun v => allNamespacesNamespace ++ "/" ++ v))
    ∧ (wrappedIndexFunc extractor o).length =
        (if o.ns = "" then (extractor o).length else 2 * (extractor o).length) := by
  refine ⟨?_, ?_, ?_⟩
  · intro hns
    simp only [wrappedIndexFunc, KeyToNamespacedKey]
    rw [if_neg (by simpa using hns)]
    simp [hns]
  · intro hns
    simp [wrappedIndexFunc, KeyToNamespacedKey, hns]
  · by_cases hns : o.ns = ""
    · simp [wrappedIndexFunc, KeyToNamespacedKey, hns]
    · simp only [wrappedIndexFunc, KeyToNamespacedKey]
      rw [if_neg (by simpa using hns)]
      simp [hns, List.length_append, List.length_map]
      omega

/-- Witness for C5 on a namespaced object extracting one value. -/
theorem c5_witness :
    (cmObj.ns ≠ "")
    ∧ wrappedIndexFunc (fun o => [o.name]) cmObj = ["ops/cm1", "__all_namespaces/cm1"] := by
  refine ⟨by decide, ?_⟩
  have h := (c5_wrapped_index_keys (fun o => [o.name]) cmObj).1 (by decide)
  rw [h]
  decide

/-- C6 — frame effect of the miss-refill path: a `Get` on a key absent
from the dedicated store's snapshot table never writes the fetched object
back; whatever the remote fetch does, the cache state (every store's
snapshot table and indices) after the call is exactly the entry state. -/
theorem c6_get_never_writes_back (c : CSCacheState)
    (remote : RemoteReq → Except GoError Obj)
    (fallbackGet : ObjKey → Obj → Except GoError Obj)
    (key : ObjKey) (obj : Obj) (gvk : GVK) (inf : Informer)
    (hg : gvkForObject c.scheme obj = .ok gvk)
    (hi : c.informerMap gvk = some inf)
    (habsent : storeGetByKey inf (getKeyString key) = none) :
    (cacheGet c remote fallbackGet key obj).2 = c := by
  simp only [cacheGet, hg, hi, getFromStore, habsent]
  cases getFromClient remote key obj gvk <;> rfl

/-- Witness for C6: a miss on the empty ConfigMap store with a remote that
answers successfully, leaving the cache state untouched. -/
theorem c6_witness :
    gvkForObject cmCacheState.scheme cmObj = .ok ⟨"", "v1", "ConfigMap"⟩
    ∧ cmCacheState.informerMap ⟨"", "v1", "ConfigMap"⟩ = some emptyCmInformer
    ∧ storeGetByKey emptyCmInformer (getKeyString ⟨"ops", "cm1"⟩) = none
    ∧ (cacheGet cmCacheState (fun _ => .ok cmObj) fallbackGetFix ⟨"ops", "cm1"⟩ cmObj).2
        = cmCacheState :=
  ⟨rfl, rfl, rfl,
    c6_get_never_writes_back cmCacheState (fun _ => .ok cmObj) fallbackGetFix
      ⟨"ops", "cm1"⟩ cmObj ⟨"", "v1", "ConfigMap"⟩ emptyCmInformer rfl rfl rfl⟩

/-- C7 — on a local miss, a remote not-found is surfaced verbatim and any
other remote error is surfaced as-is, so a `Get` on a key absent both
locally and remotely returns the remote's not-found error. -/
theorem c7_remote_errors_surface_verbatim (c : CSCacheState)
    (remote : RemoteReq → Except GoError Obj)
    (fallbackGet : ObjKey → Obj → Except GoError Obj)
    (key : ObjKey) (obj : Obj) (gvk : GVK) (inf : Informer)
    (hg : gvkForObject c.scheme obj = .ok gvk)
    (hi : c.informerMap gvk = some inf)
    (habsent : storeGetByKey inf (getKeyString key) = none) :
    (∀ g r s, remote (mkGetRequest gvk key) = .error (.notFound g r s) →
        (cacheGet c remote fallbackGet key obj).1 = .error (.notFound g r s))
    ∧ (∀ e, e.isNotFound = false → remote (mkGetRequest gvk key) = .error e →
        (cacheGet c remote fallbackGet key obj).1 = .error e) := by
  have hprop : ∀ e, remote (mkGetRequest gvk key) = .error e →
      (cacheGet c remote fallbackGet key obj).1 = .error e := by
    intro e he
    simp only [cacheGet, hg, hi, getFromStore, habsent]
    simp only [getFromClient, he]
  exact ⟨fun g r s h => hprop _ h, fun e _ h => hprop e h⟩

/-- Witness for C7: key absent locally, remote answering not-found — the
`Get` returns that not-found error. -/
theorem c7_witness :
    gvkForObject cmCacheState.scheme cmObj = .ok ⟨"", "v1", "ConfigMap"⟩
    ∧ cmCacheState.informerMap ⟨"", "v1", "ConfigMap"⟩ = some emptyCmInformer
    ∧ storeGetByKey emptyCmInformer (getKeyString ⟨"ops", "cm1"⟩) = none
    ∧ (cacheGet cmCacheState (fun _ => .error (.notFound "" "ConfigMap" "ops/cm1"))
          fallbackGetFix ⟨"ops", "cm1"⟩ cmObj).1
        = .error (.notFound "" "ConfigMap" "ops/cm1") :=
  ⟨rfl, rfl, rfl,
    (c7_remote_errors_surface_verbatim cmCacheState
        (fun _ => .error (.notFound "" "ConfigMap" "ops/cm1")) fallbackGetFix
        ⟨"ops", "cm1"⟩ cmObj ⟨"", "v1", "ConfigMap"⟩ emptyCmInformer rfl rfl rfl).1
      "" "ConfigMap" "ops/cm1" rfl⟩

/-- C4 — candidate selection precedence of the watch-backed `List` path:
a single-equality field selector consults the field index under the
namespaced key (namespace-qualified when a namespace restriction is
present, all-namespaces otherwise); with no field selector, a namespace
restriction consults the namespace index; with neither, the whole store is
listed; and the post-filter pass keeps exactly the candidates whose
namespace equals any requested namespace and which the label selector
accepts, stamping each surviving deep copy with `listToGVK gvk`. -/
theorem c4_list_selection_precedence (inf : Informer) (gvk : GVK)
    (opts : ListOptions) (listIn : List Obj) :
    (∀ r, opts.fieldSelector = some [r] →
      (r.operator = SelOp.equals ∨ r.operator = SelOp.doubleEquals) →
      cacheList inf gvk opts listIn =
        listFinish gvk opts listIn
          (byIndex inf (FieldIndexName r.field) (KeyToNamespacedKey opts.ns r.value)))
    ∧ (opts.fieldSelector = none → opts.ns ≠ "" →
      cacheList inf gvk opts listIn =
        listFinish gvk opts listIn (byIndex inf NamespaceIndex opts.ns))
    ∧ (opts.fieldSelector = none → opts.ns = "" →
      cacheList inf gvk opts listIn = listFinish gvk opts listIn (.ok inf.objs))
    ∧ (∀ v, opts.ns ≠ "" → KeyToNamespacedKey opts.ns v = opts.ns ++ "/" ++ v)
    ∧ (∀ v, opts.ns = "" → KeyToNamespacedKey opts.ns v = allNamespacesNamespace ++ "/" ++ v)
    ∧ (∀ cands, listFinish gvk opts listIn (.ok cands) =
        { listObj :=
            (cands.filter (fun o =>
              (opts.ns == "" || opts.ns == o.ns)
                && matchesLabels opts.labelSelector o)).map
              (fun o => { o with gvk := listToGVK gvk })
          err := none }) := by
  refine ⟨?_, ?_, ?_, ?_, ?_, ?_⟩
  · intro r hfs hop
    rcases hop with h | h <;> simp [cacheList, hfs, requiresExactMatch, h]
  · intro hfs hns
    simp [cacheList, hfs, hns]
  · intro hfs hns
    simp [cacheList, hfs, hns]
  · intro v hns
    simp [KeyToNamespacedKey, hns]
  · intro v hns
    simp [KeyToNamespacedKey, hns]
  · intro cands
    simp only [listFinish]
    have hpred : (fun item => !(opts.ns != "" && opts.ns != item.ns)
        && matchesLabels opts.labelSelector item)
        = (fun o => (opts.ns == "" || opts.ns == o.ns)
            && matchesLabels opts.labelSelector o) := by
      funext o
      simp [bne, Bool.not_and, Bool.not_not]
    rw [hpred]

/-- Witness for C4: the single-equality field-selector branch at a
concrete store, requirement and namespace. -/
theorem c4_witness :
    colorOpts.fieldSelector = some [colorReq]
    ∧ (colorReq.operator = SelOp.equals ∨ colorReq.operator = SelOp.doubleEquals)
    ∧ cacheList cmInformer ⟨"", "v1", "ConfigMapList"⟩ colorOpts []
        = listFinish ⟨"", "v1", "ConfigMapList"⟩ colorOpts []
            (byIndex cmInformer (FieldIndexName colorReq.field)
              (KeyToNamespacedKey colorOpts.ns colorReq.value)) :=
  ⟨rfl, Or.inl rfl,
    (c4_list_selection_precedence cmInformer ⟨"", "v1", "ConfigMapList"⟩ colorOpts []).1
      colorReq rfl (Or.inl rfl)⟩

/-- No kind equals itself with `"List"` appended. -/
theorem self_ne_append_List (s : String) : s ≠ s ++ "List" := by
  intro h
  have hlen := congrArg String.length h
  rw [String.length_append] at hlen
  have h4 : ("List" : String).length = 4 := rfl
  omega

/-- Appending `"List"` to the kind is injective. -/
theorem append_List_inj {s t : String} (h : s ++ "List" = t ++ "List") : s = t := by
  have hdata : s.data ++ "List".data = t.data ++ "List".data := by
    have := congrArg String.data h
    simpa [String.data_append] using this
  have hst : s.data = t.data := List.append_cancel_right hdata
  exact congrArg String.mk hst

/-- A GVK never equals its own derived list identifier. -/
theorem listGVKOf_ne (g : GVK) : g ≠ listGVKOf g := by
  intro h
  have : g.kind = g.kind ++ "List" := congrArg GVK.kind h
  exact self_ne_append_List g.kind this

/-- Deriving the list identifier is injective. -/
theorem listGVKOf_inj {a b : GVK} (h : listGVKOf a = listGVKOf b) : a = b := by
  cases a
  cases b
  simp only [listGVKOf, GVK.mk.injEq] at h
  obtain ⟨h1, h2, h3⟩ := h
  simp [h1, h2, append_List_inj h3]

/-- Frame lemma for the registry construction loop: a key that is neither a
processed GVK nor a processed GVK's derived list identifier keeps its
accumulator value. -/
theorem buildAux_frame (cOK sOK : GVK → Bool) :
    ∀ (l : List GVK) (acc : GVK → Option Informer) (n : Nat)
      (m : GVK → Option Informer) (g : GVK),
      buildInformerMapAux cOK sOK l acc n = some m →
      (∀ a ∈ l, g ≠ a ∧ g ≠ listGVKOf a) →
      m g = acc g := by
  intro l
  induction l with
  | nil =>
    intro acc n m g h _
    simp only [buildInformerMapAux] at h
    injection h with h
    rw [h]
  | cons gvk rest ih =>
    intro acc n m g h hfr
    simp only [buildInformerMapAux] at h
    by_cases hc : cOK gvk = true
    · rw [if_pos hc] at h
      by_cases hs : sOK gvk = true
      · rw [if_pos hs] at h
        have hg := hfr gvk (List.mem_cons_self _ _)
        have hrec := ih _ (n + 1) m g h (fun a ha => hfr a (List.mem_cons_of_mem _ ha))
        rw [hrec]
        simp [mapInsert, hg.1, hg.2]
      · rw [if_neg hs] at h
        exact Option.noConfusion h
    · rw [if_neg hc] at h
      exact Option.noConfusion h

/-- Under the no-collision hypothesis, a successful construction maps each
listed GVK and its derived list identifier to the informer created for
that GVK's (final) occurrence. -/
theorem buildAux_pairs (cOK sOK : GVK → Bool) :
    ∀ (l : List GVK) (acc : GVK → Option Informer) (n : Nat)
      (m : GVK → Option Informer),
      buildInformerMapAux cOK sOK l acc n = some m →
      (∀ a ∈ l, ∀ b ∈ l, b ≠ listGVKOf a) →
      ∀ gvk ∈ l, ∃ inf, m gvk = some inf ∧ m (listGVKOf gvk) = some inf := by
  intro l
  induction l with
  | nil =>
    intro acc n m _ _ gvk hg
    cases hg
  | cons a rest ih =>
    intro acc n m h hnc gvk hg
    simp only [buildInformerMapAux] at h
    by_cases hc : cOK a = true
    · rw [if_pos hc] at h
      by_cases hs : sOK a = true
      · rw [if_pos hs] at h
        by_cases hmem : gvk ∈ rest
        · exact ih _ (n + 1) m h
            (fun x hx y hy =>
              hnc x (List.mem_cons_of_mem _ hx) y (List.mem_cons_of_mem _ hy))
            gvk hmem
        · have hga : gvk = a := by
            rcases List.mem_cons.mp hg with h1 | h1
            · exact h1
            · exact absurd h1 hmem
          subst hga
          refine ⟨newInformerFor n gvk, ?_, ?_⟩
          · have hfr : ∀ x ∈ rest, gvk ≠ x ∧ gvk ≠ listGVKOf x := by
              intro x hx
              refine ⟨?_, ?_⟩
              · intro heq
                exact hmem (heq ▸ hx)
              · exact hnc x (List.mem_cons_of_mem _ hx) gvk hg
            rw [buildAux_frame cOK sOK rest _ (n + 1) m gvk h hfr]
            simp [mapInsert, listGVKOf_ne gvk]
          · have hfr : ∀ x ∈ rest, listGVKOf gvk ≠ x ∧ listGVKOf gvk ≠ listGVKOf x := by
              intro x hx
              refine ⟨?_, ?_⟩
              · intro heq
                exact (hnc gvk hg x (List.mem_cons_of_mem _ hx)) heq.symm
              · intro heq
                refine hmem ?_
                rw [listGVKOf_inj heq]
                exact hx
            rw [buildAux_frame cOK sOK rest _ (n + 1) m (listGVKOf gvk) h hfr]
            simp [mapInsert]
      · rw [if_neg hs] at h
        exact Option.noConfusion h
    · rw [if_neg hc] at h
      exact Option.noConfusion h

/-- A client or scheme failure for any listed GVK makes the whole
construction return no map. -/
theorem buildAux_fail (cOK sOK : GVK → Bool) :
    ∀ (l : List GVK) (acc : GVK → Option Informer) (n : Nat) (g : GVK),
      g ∈ l → (cOK g = false ∨ sOK g = false) →
      buildInformerMapAux cOK sOK l acc n = none := by
  intro l
  induction l with
  | nil =>
    intro acc n g hg _
    cases hg
  | cons a rest ih =>
    intro acc n g hg hbad
    simp only [buildInformerMapAux]
    by_cases hc : cOK a = true
    · rw [if_pos hc]
      by_cases hs : sOK a = true
      · rw [if_pos hs]
        rcases List.mem_cons.mp hg with h1 | h1
        · subst h1
          rcases hbad with hb | hb
          · simp [hc] at hb
          · simp [hs] at hb
        · exact ih _ (n + 1) g h1 hbad
      · rw [if_neg hs]
    · rw [if_neg hc]

/-- C8 — counterexample to the unrestricted claim.  Constructing the
registry from the input list `[Pod, PodList]`: the second iteration
overwrites the entry the first iteration stored under `PodList`, so the
entry under the kind `Pod` (the informer created first, id 0) and the
entry under its derived list identifier `PodList` (the informer created
second, id 1) no longer reference the same store. -/
theorem c8_counterexample :
    listGVKOf podGVK = podListGVK
    ∧ mapIdAt (buildInformerMap (fun _ => true) (fun _ => true) [podGVK, podListGVK]) podGVK
        = some 0
    ∧ mapIdAt (buildInformerMap (fun _ => true) (fun _ => true) [podGVK, podListGVK])
        (listGVKOf podGVK) = some 1 := by
  refine ⟨by decide, by decide, by decide⟩

/-- C8 — amended.  Provided no listed identifier is the `"List"`-suffixed
form of another listed identifier, after a successful registry
construction every listed kind has entries under both the kind identifier
and its derived list identifier referencing the same informer; and a
client or scheme failure for any kind of the input yields no registry at
all. -/
theorem c8_registry_pairs_kind_with_list (cOK sOK : GVK → Bool) (l : List GVK)
    (m : GVK → Option Informer) (gvk : GVK)
    (hnc : ∀ a ∈ l, ∀ b ∈ l, b ≠ listGVKOf a)
    (hm : buildInformerMap cOK sOK l = some m)
    (hmem : gvk ∈ l) :
    (∃ inf, m gvk = some inf ∧ m (listGVKOf gvk) = some inf)
    ∧ (∀ (cOK2 sOK2 : GVK → Bool) (l2 : List GVK) (g2 : GVK),
        g2 ∈ l2 → (cOK2 g2 = false ∨ sOK2 g2 = false) →
        buildInformerMap cOK2 sOK2 l2 = none) :=
  ⟨buildAux_pairs cOK sOK l _ 0 m hm hnc gvk hmem,
    fun c2 s2 l2 g2 h1 h2 => buildAux_fail c2 s2 l2 _ 0 g2 h1 h2⟩

/-- Witness for C8's amended theorem at the one-element input `[cmGVK]`. -/
theorem c8_witness :
    (∀ a ∈ [cmGVK], ∀ b ∈ [cmGVK], b ≠ listGVKOf a)
    ∧ buildInformerMap (fun _ => true) (fun _ => true) [cmGVK] = some cmRegistry
    ∧ cmGVK ∈ [cmGVK]
    ∧ ((∃ inf, cmRegistry cmGVK = some inf ∧ cmRegistry (listGVKOf cmGVK) = some inf)
        ∧ (∀ (cOK2 sOK2 : GVK → Bool) (l2 : List GVK) (g2 : GVK),
            g2 ∈ l2 → (cOK2 g2 = false ∨ sOK2 g2 = false) →
            buildInformerMap cOK2 sOK2 l2 = none)) :=
  ⟨by decide, rfl, by decide,
    c8_registry_pairs_kind_with_list (fun _ => true) (fun _ => true) [cmGVK] cmRegistry cmGVK
      (by decide) rfl (by decide)⟩
